import Mathlib

/-!
Shallow embedding of the accounting server's authentication-and-data-access
core (src/app.py, src/utils/utils.py, src/utils/database.py), together with
theorems settling the specification claims about it.

Python values stored in documents are modelled by `Value`; MongoDB ObjectIds
are modelled as naturals rendered in decimal (the source renders them as hex
strings; only injectivity of the rendering matters here).  External
cryptographic primitives (bcrypt, HMAC-SHA256 inside PyJWT, the AES-CBC core
of the `cryptography` package) are not part of the repository; they are
modelled as ideal primitives following the specification's description of
them, with doc comments marking each such model.
-/

/-- Modelled from the spec: the bcrypt library (external, not under src/) is
described as producing "a salted one-way hash" where `verify_password`
"returns false on any mismatch".  The hash is modelled as a perfectly binding
commitment to the password and salt; `checkpw` recomputes the hash of the
entered password with the stored salt and compares. -/
structure BHash where
  salt : Nat
  pw : String
deriving DecidableEq, Repr

/-- Modelled from the spec: `bcrypt.hashpw(password, salt)`. -/
def bcryptHashpw (password : String) (salt : Nat) : BHash :=
  { salt := salt, pw := password }

/-- Modelled from the spec: `bcrypt.checkpw(entered, stored)` — recomputes the
hash of the entered password with the stored salt and compares. -/
def bcryptCheckpw (entered : String) (stored : BHash) : Bool :=
  bcryptHashpw entered stored.salt == stored

/-- A dynamic value as stored in a document.  The documents this application
builds hold strings, ObjectIds and bcrypt hashes; nested dicts/lists never
occur in them, so the value universe is restricted to these scalar cases. -/
inductive Value where
  | str (s : String) : Value
  | objId (n : Nat) : Value
  | hashV (h : BHash) : Value
deriving DecidableEq, Repr

/-- A Python dict used as a MongoDB document or JSON body: an association
list of string keys and values, in insertion order. -/
abbrev Doc := List (String × Value)

/-- Python exceptions that the embedded operations can raise.  An `Except.error`
result models an exception propagating out of the function. -/
inductive PyErr where
  | typeError
  | indexError
  | keyError
  | valueError
  | attributeError
  | invalidId
  | unicodeDecodeError
deriving DecidableEq, Repr

deriving instance DecidableEq for Except

namespace Utils

/-- `Utils.hash_password` (src/utils/utils.py line 127):
`hashpw(password.encode(), gensalt()).decode()`.  The salt drawn by
`gensalt()` is passed explicitly by the caller. -/
def hash_password (password : String) (salt : Nat) : BHash :=
  bcryptHashpw password salt

/-- `Utils.validate_password` (src/utils/utils.py line 130):
`checkpw(entered_password.encode(), stored_hash.encode())`. -/
def validate_password (stored_hash : BHash) (entered_password : String) : Bool :=
  bcryptCheckpw entered_password stored_hash

end Utils

/-- The claims a token carries: `{'id': ..., 'username': ...}` built by
`create_token`, plus the optional `exp` claim that PyJWT checks on decode
(this application never sets `exp`; foreign tokens may carry one). -/
structure TokenPayload where
  id : Value
  username : Value
  exp : Option Nat
deriving DecidableEq, Repr

/-- Modelled from the spec: a JWT produced or consumed by PyJWT (external
library, not under src/).  The spec describes it as a "signed, self-contained
bearer credential" whose "validity is determined solely by signature
verification".  A well-formed token is a payload plus an HMAC-SHA256
signature; the MAC is modelled as ideal (the signature is the MAC input
itself, so two distinct inputs never share a signature).  Strings that do not
parse as a JWT at all are `garbage`. -/
inductive Token where
  | signed (payload : TokenPayload) (sig : String × TokenPayload) : Token
  | garbage (raw : String) : Token
deriving DecidableEq, Repr

/-- Modelled from the spec: the HMAC-SHA256 signature over a payload under a
secret key, as an ideal MAC. -/
def hmacSign (key : String) (payload : TokenPayload) : String × TokenPayload :=
  (key, payload)

/-- Modelled from the spec: `jwt.encode(payload, key, algorithm="HS256")`. -/
def jwtEncode (key : String) (payload : TokenPayload) : Token :=
  .signed payload (hmacSign key payload)

/-- Modelled from the spec: `jwt.decode(token, key, algorithms=['HS256'])` —
verifies the signature, then the registered claims (`exp` against the current
time), raising `InvalidTokenError` respectively `ExpiredSignatureError`. -/
def jwtDecode (key : String) (now : Nat) (token : Token) :
    Except PyErr TokenPayload :=
  match token with
  | .garbage _ => .error .valueError
  | .signed payload sig =>
    if sig = hmacSign key payload then
      match payload.exp with
      | some t => if t ≤ now then .error .valueError else .ok payload
      | none => .ok payload
    else .error .valueError

namespace Utils

/-- `Utils.create_token` (src/utils/utils.py lines 32-48): builds the payload
`{'id': user[0]['_id'], 'username': user[0]['username']}` and signs it.
`user[0]` on an empty list raises `IndexError`; a missing key raises
`KeyError`. -/
def create_token (key : String) (user : List Doc) : Except PyErr Token :=
  match user with
  | [] => .error .indexError
  | u :: _ =>
    match u.lookup "_id", u.lookup "username" with
    | some i, some n => .ok (jwtEncode key { id := i, username := n, exp := none })
    | _, _ => .error .keyError

/-- `Utils.verify_token` (src/utils/utils.py lines 50-73): returns `none` for
a missing (falsy) token, and catches `ExpiredSignatureError` and
`InvalidTokenError` from `jwt.decode`, returning `none` in both cases;
otherwise returns the decoded payload. -/
def verify_token (key : String) (now : Nat) (token : Option Token) :
    Option TokenPayload :=
  match token with
  | none => none
  | some t =>
    match jwtDecode key now t with
    | .ok payload => some payload
    | .error _ => none

end Utils

/-- UTF-8 encoding of a single code point, as performed by Python's
`str.encode('utf-8')`. -/
def encChar (c : Char) : List Nat :=
  let n := c.toNat
  if n < 128 then [n]
  else if n < 2048 then [192 + n / 64, 128 + n % 64]
  else if n < 65536 then [224 + n / 4096, 128 + n / 64 % 64, 128 + n % 64]
  else [240 + n / 262144, 128 + n / 4096 % 64, 128 + n / 64 % 64, 128 + n % 64]

/-- UTF-8 encoding of a Python string (a sequence of code points). -/
def encStr : List Char → List Nat
  | [] => []
  | c :: cs => encChar c ++ encStr cs

/-- UTF-8 decoding of a byte sequence, as performed by Python's
`bytes.decode('utf-8')`: `none` models a raised `UnicodeDecodeError`
(truncated sequences, stray continuation bytes, overlong forms,
surrogates). -/
def decBytes : List Nat → Option (List Char)
  | [] => some []
  | b0 :: rest =>
    if b0 < 128 then
      match decBytes rest with
      | some cs => some (Char.ofNat b0 :: cs)
      | none => none
    else if 192 ≤ b0 ∧ b0 < 224 then
      match rest with
      | b1 :: rest1 =>
        if 128 ≤ b1 ∧ b1 < 192 then
          let v := (b0 - 192) * 64 + (b1 - 128)
          if 128 ≤ v then
            match decBytes rest1 with
            | some cs => some (Char.ofNat v :: cs)
            | none => none
          else none
        else none
      | [] => none
    else if 224 ≤ b0 ∧ b0 < 240 then
      match rest with
      | b1 :: b2 :: rest2 =>
        if (128 ≤ b1 ∧ b1 < 192) ∧ (128 ≤ b2 ∧ b2 < 192) then
          let v := (b0 - 224) * 4096 + (b1 - 128) * 64 + (b2 - 128)
          if 2048 ≤ v ∧ ¬(55296 ≤ v ∧ v < 57344) then
            match decBytes rest2 with
            | some cs => some (Char.ofNat v :: cs)
            | none => none
          else none
        else none
      | _ => none
    else if 240 ≤ b0 ∧ b0 < 248 then
      match rest with
      | b1 :: b2 :: b3 :: rest3 =>
        if (128 ≤ b1 ∧ b1 < 192) ∧ (128 ≤ b2 ∧ b2 < 192) ∧ (128 ≤ b3 ∧ b3 < 192) then
          let v := (b0 - 240) * 262144 + (b1 - 128) * 4096 + (b2 - 128) * 64 + (b3 - 128)
          if 65536 ≤ v ∧ v < 1114112 then
            match decBytes rest3 with
            | some cs => some (Char.ofNat v :: cs)
            | none => none
          else none
        else none
      | _ => none
    else none

/-- The lowercase hex digit for a value below 16, as emitted by
Python's `bytes.hex()`. -/
def hexDigit (n : Nat) : Char :=
  if n < 10 then Char.ofNat (48 + n) else Char.ofNat (87 + n)

/-- `bytes.hex()`: two lowercase hex digits per byte. -/
def bytesToHex : List Nat → List Char
  | [] => []
  | b :: bs => hexDigit (b / 16) :: hexDigit (b % 16) :: bytesToHex bs

/-- The value of one hex digit, upper or lower case; `none` for a
non-hex character. -/
def hexVal (c : Char) : Option Nat :=
  if 48 ≤ c.toNat ∧ c.toNat ≤ 57 then some (c.toNat - 48)
  else if 97 ≤ c.toNat ∧ c.toNat ≤ 102 then some (c.toNat - 87)
  else if 65 ≤ c.toNat ∧ c.toNat ≤ 70 then some (c.toNat - 55)
  else none

/-- `bytes.fromhex(s)`: pairs of hex digits; `none` models the
`ValueError` raised on an odd-length string or a non-hex character. -/
def hexToBytes : List Char → Option (List Nat)
  | [] => some []
  | [_] => none
  | c1 :: c2 :: rest =>
    match hexVal c1, hexVal c2, hexToBytes rest with
    | some v1, some v2, some bs => some ((v1 * 16 + v2) :: bs)
    | _, _, _ => none

/-- Python's `str.split(sep)` for a one-character separator. -/
def pySplit (sep : Char) : List Char → List (List Char)
  | [] => [[]]
  | c :: rest =>
    let r := pySplit sep rest
    if c = sep then [] :: r
    else
      match r with
      | p :: ps => (c :: p) :: ps
      | [] => [[c]]

/-- Modelled from the spec: the AES-CBC core of the `cryptography` package
(external, not under src/).  `enc iv pt` and `dec iv ct` stand for raw
CBC-mode encryption and decryption of a byte sequence whose length is a
multiple of the 16-byte block under the process encryption key; the
theorems below evaluate concrete instances such as `idCipher`. -/
structure BlockCipher where
  enc : List Nat → List Nat → List Nat
  dec : List Nat → List Nat → List Nat

/-- The identity instance of the abstract cipher, used to evaluate the
padding pipeline on concrete inputs. -/
def idCipher : BlockCipher :=
  { enc := fun _ pt => pt, dec := fun _ ct => ct }

/-- `algorithms.AES.block_size` from the `cryptography` package: the block
size of AES in BITS.  The source uses this constant as if it were a byte
count when computing padding. -/
def AES.block_size : Nat := 128

namespace Utils

/-- `Utils.encrypt` (src/utils/utils.py lines 75-96): pads the text with
`chr(AES.block_size - len(text) % AES.block_size)` repeated that many times
(a character-count computation using the block size in bits), UTF-8 encodes
the padded text, encrypts it under a fresh IV (passed explicitly here in
place of `os.urandom`), and returns `iv.hex() + ":" + encrypted.hex()`.
The `ValueError` raised by `encryptor.finalize()` when the encoded length is
not a multiple of 16 bytes is modelled by the explicit length check. -/
def encrypt (C : BlockCipher) (iv : List Nat) (text : List Char) :
    Except PyErr (List Char) :=
  let padLen := AES.block_size - text.length % AES.block_size
  let padded_text := text ++ List.replicate padLen (Char.ofNat padLen)
  let bytes := encStr padded_text
  if bytes.length % 16 = 0 then
    .ok (bytesToHex iv ++ ':' :: bytesToHex (C.enc iv bytes))
  else .error .valueError

/-- `Utils.decrypt` (src/utils/utils.py lines 98-125): empty input
short-circuits to the empty string; otherwise split on `":"`, hex-decode the
two parts (a `ValueError` if malformed, an `IndexError` if there is no second
part), build the cipher (a `ValueError` unless the IV is 16 bytes), decrypt
(a `ValueError` unless the ciphertext is a multiple of 16 bytes), read the
trailing byte as the padding length (`decrypted[-1]` raises `IndexError` on
an empty result; `decrypted[:-0]` is empty in Python), strip it, and UTF-8
decode. -/
def decrypt (C : BlockCipher) (text : List Char) : Except PyErr (List Char) :=
  if text = [] then .ok []
  else
    let text_parts := pySplit ':' text
    match hexToBytes (text_parts.headD []) with
    | none => .error .valueError
    | some iv =>
      match text_parts[1]? with
      | none => .error .indexError
      | some part1 =>
        match hexToBytes part1 with
        | none => .error .valueError
        | some encrypted_text =>
          if iv.length = 16 then
            if encrypted_text.length % 16 = 0 then
              let decrypted := C.dec iv encrypted_text
              match decrypted.getLast? with
              | none => .error .indexError
              | some padding_length =>
                let stripped :=
                  if padding_length = 0 then []
                  else decrypted.take (decrypted.length - padding_length)
                match decBytes stripped with
                | some s => .ok s
                | none => .error .unicodeDecodeError
            else .error .valueError
          else .error .valueError

end Utils

/-- The MongoDB store visible to this process: the two collections the
handlers touch, the counter generating fresh ObjectIds (modelled as
naturals), and the entropy counter standing for `gensalt()` draws. -/
structure DBState where
  users : List Doc
  data : List Doc
  nextId : Nat
  rng : Nat
deriving DecidableEq, Repr

/-- `pymongo`'s `DeleteResult`: carries the count of removed documents.  It
defines neither `__bool__`, `__len__` nor `__iter__`, so it is always truthy
and iterating over it raises `TypeError`. -/
structure DeleteResult where
  deleted_count : Nat
deriving DecidableEq, Repr

/-- A MongoDB exact-match filter: every filter field must be present in the
document with an equal value (the filters this application builds are flat
field-to-value maps). -/
def matchesFilter (filter : Doc) (doc : Doc) : Bool :=
  filter.all fun kv =>
    match doc.lookup kv.1 with
    | some v => v == kv.2
    | none => false

/-- Decimal digit accumulation for `parseObjectId`. -/
def parseDigits (acc : Nat) : List Char → Option Nat
  | [] => some acc
  | c :: cs =>
    if 48 ≤ c.toNat ∧ c.toNat ≤ 57 then parseDigits (acc * 10 + (c.toNat - 48)) cs
    else none

/-- `ObjectId(id)` applied to a boundary string: the source converts the
string form back to the native id (raising `bson.errors.InvalidId` on a
malformed string); with ids modelled as decimally rendered naturals this is
decimal parsing, `none` modelling the raised `InvalidId`. -/
def parseObjectId (id : String) : Option Nat :=
  match id.data with
  | [] => none
  | ds => parseDigits 0 ds

/-- Python's `str.lower()` (the usernames this service handles are ASCII,
where per-character ASCII lowercasing coincides with Python's). -/
def pyLower (s : String) : String :=
  ⟨s.data.map Char.toLower⟩

namespace Database

/-- `Database.serialize_data` (src/utils/database.py lines 199-215) on a
single value: an ObjectId becomes its string form; other scalars are
returned unchanged.  (The dict and list cases of the source recurse; the
documents this application stores hold only scalars, so the recursion is
exercised one level deep via `serializeDoc`.) -/
def serializeVal : Value → Value
  | .objId n => .str (toString n)
  | v => v

/-- `Database.serialize_data` on a document: serialize every field value. -/
def serializeDoc (doc : Doc) : Doc :=
  doc.map fun kv => (kv.1, serializeVal kv.2)

/-- `insert_one` on a collection: the driver assigns the fresh ObjectId,
which appears as the `_id` field of the stored document. -/
def insertOne (doc : Doc) (oid : Nat) (coll : List Doc) : List Doc :=
  coll ++ [("_id", .objId oid) :: doc]

/-- `Database.add_user` (src/utils/database.py lines 70-85):
`users.insert_one(user)`, returning `result.inserted_id`. -/
def add_user (user : Doc) (st : DBState) : Nat × DBState :=
  (st.nextId,
   { st with users := insertOne user st.nextId st.users, nextId := st.nextId + 1 })

/-- `Database.get_user` (src/utils/database.py lines 88-115):
`list(users.find(filter))`, serialized if non-empty, else `[]`. -/
def get_user (filter : Doc) (st : DBState) : List Doc :=
  let result := st.users.filter (matchesFilter filter)
  if result.isEmpty then [] else result.map serializeDoc

/-- `Database.add_data` (src/utils/database.py lines 118-134):
`data.insert_one(data)`, returning `result.inserted_id`. -/
def add_data (content : Doc) (st : DBState) : Nat × DBState :=
  (st.nextId,
   { st with data := insertOne content st.nextId st.data, nextId := st.nextId + 1 })

/-- `Database.get_all_data` (src/utils/database.py lines 137-155): same
shape as `get_user` over the `data` collection. -/
def get_all_data (filter : Doc) (st : DBState) : List Doc :=
  let result := st.data.filter (matchesFilter filter)
  if result.isEmpty then [] else result.map serializeDoc

/-- MongoDB's `find_one_and_update` with `{"$set": data}` and the
after-update document requested: update the first document whose `_id`
matches, merging the `$set` fields into it (present fields overwritten,
absent fields appended), and return the post-update document. -/
def setField (doc : Doc) (k : String) (v : Value) : Doc :=
  if doc.any (fun kv => kv.1 == k) then
    doc.map fun kv => if kv.1 == k then (kv.1, v) else kv
  else doc ++ [(k, v)]

/-- Merge-set: fold `setField` over the `$set` document. -/
def mergeSet (doc : Doc) (data : Doc) : Doc :=
  data.foldl (fun d kv => setField d kv.1 kv.2) doc

/-- The collection traversal of `find_one_and_update`. -/
def findOneAndUpdate (oid : Nat) (data : Doc) : List Doc → Option Doc × List Doc
  | [] => (none, [])
  | d :: ds =>
    if d.lookup "_id" == some (.objId oid) then
      (some (mergeSet d data), mergeSet d data :: ds)
    else
      let r := findOneAndUpdate oid data ds
      (r.1, d :: r.2)

/-- `delete_one` on the data collection: remove the first document whose
`_id` matches and report the count of removed documents. -/
def deleteOne (oid : Nat) : List Doc → Nat × List Doc
  | [] => (0, [])
  | d :: ds =>
    if d.lookup "_id" == some (.objId oid) then (1, ds)
    else
      let r := deleteOne oid ds
      (r.1, d :: r.2)

/-- `Database.update_data` (src/utils/database.py lines 158-177): runs
`find_one_and_update({"_id": ObjectId(id)}, {"$set": data}, return_document=True)`
and then evaluates `[self.serialize_data(item) for item in result] if result
else []`.  `result` is the post-update document (a dict) or `None`; iterating
a dict yields its KEYS, so the returned list holds the serialized field names
of the updated document, not the document itself. -/
def update_data (id : String) (data : Doc) (st : DBState) :
    Except PyErr (List Value) × DBState :=
  match parseObjectId id with
  | none => (.error .invalidId, st)
  | some oid =>
    let r := findOneAndUpdate oid data st.data
    match r.1 with
    | none => (.ok [], { st with data := r.2 })
    | some doc =>
      (.ok (doc.map fun kv => serializeVal (.str kv.1)), { st with data := r.2 })

/-- `Database.delete_data` (src/utils/database.py lines 180-196): runs
`data.delete_one({"_id": ObjectId(id)})` and then evaluates
`[self.serialize_data(item) for item in result] if result else []`.
`result` is a `DeleteResult`, which is always truthy and not iterable, so
the comprehension raises `TypeError` on every call — after the deletion has
already been applied to the collection. -/
def delete_data (id : String) (st : DBState) :
    Except PyErr (List Value) × DBState :=
  match parseObjectId id with
  | none => (.error .invalidId, st)
  | some oid =>
    let r := deleteOne oid st.data
    let _result : DeleteResult := { deleted_count := r.1 }
    (.error .typeError, { st with data := r.2 })

end Database

/-- The outcome of the register handler, one constructor per terminal
response of `register_user` in src/app.py. -/
inductive RegResult where
  | invalidInput : RegResult
  | alreadyExists : RegResult
  | created (userId : String) : RegResult
  | serverError : RegResult
deriving DecidableEq, Repr

/-- The HTTP status code each register outcome is returned with. -/
def RegResult.status : RegResult → Nat
  | .invalidInput => 400
  | .alreadyExists => 400
  | .created _ => 201
  | .serverError => 500

/-- The outcome of the delete handler, one constructor per terminal
response of `delete_data` in src/app.py. -/
inductive DelResult where
  | noContent : DelResult
  | notFound : DelResult
  | serverError : DelResult
deriving DecidableEq, Repr

/-- The HTTP status code each delete outcome is returned with. -/
def DelResult.status : DelResult → Nat
  | .noContent => 204
  | .notFound => 404
  | .serverError => 500

namespace App

/-- `register_user` (src/app.py lines 81-107).  `data` is the parsed JSON
body (`none` when the body is absent or not an object).  The handler checks
the presence of `username`, `password` AND `role` (role is required in this
variant), lowercases the username, pre-checks duplicates with
`database.get_user({'name': username})` — note the filter key `'name'`,
although user documents store the username under `'username'` — hashes the
password, inserts `{'username': ..., 'password': hash, 'role': ...}` and
returns the new id as a string.  A non-string `username` or `password` makes
`.lower()`/`hashpw` raise, which the outer `except` turns into a 500. -/
def register_user (data : Option Doc) (st : DBState) : RegResult × DBState :=
  match data with
  | none => (.invalidInput, st)
  | some d =>
    match d.lookup "username", d.lookup "password", d.lookup "role" with
    | some uv, some pv, some rv =>
      match uv, pv with
      | .str u, .str p =>
        let username := pyLower u
        let user_exists := Database.get_user [("name", .str username)] st
        if ¬ user_exists.isEmpty then (.alreadyExists, st)
        else
          let hasedPassword := Utils.hash_password p st.rng
          let new_user : Doc :=
            [("username", .str username), ("password", .hashV hasedPassword),
             ("role", rv)]
          let st' := { st with rng := st.rng + 1 }
          let r := Database.add_user new_user st'
          (.created (toString r.1), r.2)
      | _, _ => (.serverError, st)
    | _, _, _ => (.invalidInput, st)

/-- `delete_data` (src/app.py lines 385-396): calls
`database.delete_data(id)` and then reads `delete_result.deleted_count`.
`database.delete_data` either raises (caught by the handler's `except`,
returning 500) or would return a list, which has no `deleted_count`
attribute (an `AttributeError`, likewise caught and returned as 500). -/
def delete_data (id : String) (st : DBState) : DelResult × DBState :=
  match Database.delete_data id st with
  | (.error _, st') => (.serverError, st')
  | (.ok _, st') => (.serverError, st')

end App

/-- The store at process start: empty collections. -/
def st0 : DBState := { users := [], data := [], nextId := 0, rng := 0 }

/-- A well-formed register body for user "alice". -/
def reqAlice : Doc :=
  [("username", .str "alice"), ("password", .str "Passw0rd!"), ("role", .str "user")]

/-- A second register body for the same user, with different casing. -/
def reqAliceAgain : Doc :=
  [("username", .str "Alice"), ("password", .str "Secret123"), ("role", .str "user")]

/-- The store after the first successful registration of "alice". -/
def stAlice : DBState := (App.register_user (some reqAlice) st0).2

/-- A 16-byte zero IV standing for one draw of `os.urandom(16)`. -/
def iv0 : List Nat := List.replicate 16 0

/-- A data collection holding one record with two content fields. -/
def stRec : DBState :=
  { users := [],
    data := [[("_id", .objId 1), ("info", .str "test data"), ("keep", .str "kept")]],
    nextId := 2, rng := 0 }

set_option maxRecDepth 40000

/-- C1: the spec says a second registration with an existing username is
rejected with "already exists" and inserts nothing.  The code's duplicate
pre-check queries `get_user({'name': username})`, but user documents store
the username under the key `'username'` (and `login_user` queries that key),
so the pre-check never matches: re-registering "alice" (any casing) succeeds
with a fresh identifier and a second document for "alice" is inserted. -/
theorem c1_duplicate_register_not_rejected :
    (App.register_user (some reqAlice) st0).1 = .created "0" ∧
    Database.get_user [("username", Value.str "alice")] stAlice ≠ [] ∧
    Database.get_user [("name", Value.str "alice")] stAlice = [] ∧
    (App.register_user (some reqAliceAgain) stAlice).1 = .created "1" ∧
    ((App.register_user (some reqAliceAgain) stAlice).2.users.filter
      (fun d => d.lookup "username" == some (Value.str "alice"))).length = 2 := by
  refine ⟨by decide, by decide, by decide, by decide, by decide⟩

/-- C3: the spec says `delete_data` on a nonexistent id returns a deletion
outcome with count 0 and never raises, and the handler maps count 0 to a
not-found response.  In the code, `delete_data` computes a `DeleteResult`
with `deleted_count = 0` but then iterates over it (`for item in result`),
raising `TypeError` on every call; the handler's `except` turns this into
the generic 500 response, so the 404 branch is unreachable. -/
theorem c3_delete_nonexistent_raises :
    (Database.deleteOne 5 st0.data).1 = 0 ∧
    Database.delete_data "5" st0 = (.error .typeError, st0) ∧
    App.delete_data "5" st0 = (.serverError, st0) ∧
    DelResult.status (App.delete_data "5" st0).1 = 500 := by
  refine ⟨by decide, by decide, by decide, by decide⟩

/-- C4: the spec says `update_data` returns a list containing the
post-update document.  The merge-set update itself is applied as specified
(the `keep` field absent from the payload is preserved, `info` is
overwritten), but the code then iterates over the updated document —
iterating a Python dict yields its keys — so the returned list holds the
document's serialized field names, not the document.  A miss still returns
the empty list. -/
theorem c4_update_returns_keys_not_document :
    Database.update_data "1" [("info", Value.str "updated data")] stRec =
      (.ok [Value.str "_id", Value.str "info", Value.str "keep"],
       { stRec with
          data := [[("_id", Value.objId 1), ("info", Value.str "updated data"),
                    ("keep", Value.str "kept")]] }) ∧
    Database.update_data "99" [("info", Value.str "x")] stRec = (.ok [], stRec) := by
  refine ⟨by decide, by decide⟩

/-- C10: `decrypt` is not total on non-empty inputs.  On `"ab"` (valid hex,
no `":"` delimiter) the access `text_parts[1]` raises `IndexError`; on
`"abc"` the call `bytes.fromhex("abc")` raises `ValueError`; the empty
string is short-circuited to the empty string rather than an error. -/
theorem c10_decrypt_partial_on_malformed_input :
    Utils.decrypt idCipher ['a', 'b'] = .error .indexError ∧
    Utils.decrypt idCipher ['a', 'b', 'c'] = .error .valueError ∧
    Utils.decrypt idCipher [] = .ok [] := by
  refine ⟨by decide, by decide, by decide⟩

/-- C2: the spec says encrypt-then-decrypt returns the original plaintext
for all strings, including the empty string.  The code pads with
`algorithms.AES.block_size - len(text) % algorithms.AES.block_size` copies of
`chr(...)` of that same value — but `block_size` is 128, the AES block size
in BITS, not 16 bytes as the code's own comment states.  For the empty
string the pad is 128 copies of `chr(128)`, which UTF-8-encode to 256 bytes;
decryption strips only `decrypted[-1] = 128` bytes, leaving 128 bytes that
decode to 64 copies of U+0080.  So decrypt(encrypt("")) is 64 copies of
`chr(128)`, not `""` (evaluated here with the identity instance of the
cipher core, which encrypt and decrypt share). -/
theorem c2_roundtrip_fails_on_empty_string :
    (Utils.encrypt idCipher iv0 []).bind (Utils.decrypt idCipher) =
      .ok (List.replicate 64 (Char.ofNat 128)) ∧
    (List.replicate 64 (Char.ofNat 128) : List Char) ≠ [] := by
  refine ⟨by decide, by decide⟩

/-- C5: hashing then verifying the same password succeeds, and verifying a
different password fails; both checks are total.  (The bcrypt primitive is
external to the repository and is modelled as ideal, per the spec.) -/
theorem c5_hash_verify_roundtrip (p q : String) (salt : Nat) (hne : p ≠ q) :
    Utils.validate_password (Utils.hash_password p salt) p = true ∧
    Utils.validate_password (Utils.hash_password p salt) q = false := by
  constructor
  · simp [Utils.validate_password, Utils.hash_password, bcryptCheckpw, bcryptHashpw]
  · simp only [Utils.validate_password, Utils.hash_password, bcryptCheckpw,
      bcryptHashpw, beq_eq_false_iff_ne, ne_eq, BHash.mk.injEq, not_and, true_implies]
    intro h
    exact hne h.symm

/-- Witness for C5 at a concrete password pair. -/
theorem c5_hash_verify_roundtrip_witness :
    Utils.validate_password (Utils.hash_password "Passw0rd!" 0) "Passw0rd!" = true ∧
    Utils.validate_password (Utils.hash_password "Passw0rd!" 0) "wrong" = false :=
  c5_hash_verify_roundtrip "Passw0rd!" "wrong" 0 (by decide)

/-- C6: `create_token` on a user-lookup result whose first element carries
`_id` and `username` embeds exactly that pair, `verify_token` recovers it,
and a token whose signature does not match its payload (in particular one
whose payload was altered while keeping the old signature, or whose
signature was replaced) verifies to the invalid outcome. -/
theorem c6_create_verify_token_roundtrip (key : String) (now : Nat)
    (u : Doc) (rest : List Doc) (i n : Value)
    (p : TokenPayload) (sig : String × TokenPayload)
    (hid : u.lookup "_id" = some i) (hun : u.lookup "username" = some n)
    (htamper : sig ≠ hmacSign key p) :
    Utils.create_token key (u :: rest) =
      .ok (Token.signed { id := i, username := n, exp := none }
        (hmacSign key { id := i, username := n, exp := none })) ∧
    Utils.verify_token key now
        (some (Token.signed { id := i, username := n, exp := none }
          (hmacSign key { id := i, username := n, exp := none }))) =
      some { id := i, username := n, exp := none } ∧
    Utils.verify_token key now (some (Token.signed p sig)) = none := by
  refine ⟨?_, ?_, ?_⟩
  · simp [Utils.create_token, hid, hun, jwtEncode]
  · simp [Utils.verify_token, jwtDecode]
  · simp [Utils.verify_token, jwtDecode, htamper]

/-- Witness for C6: a concrete user list, the round trip, and a token whose
payload was altered from id "1" to id "2" while keeping the old
signature. -/
theorem c6_create_verify_token_roundtrip_witness :
    Utils.create_token "secret" [[("_id", Value.str "1"), ("username", Value.str "alice")]] =
      .ok (Token.signed { id := .str "1", username := .str "alice", exp := none }
        (hmacSign "secret" { id := .str "1", username := .str "alice", exp := none })) ∧
    Utils.verify_token "secret" 0
        (some (Token.signed { id := .str "1", username := .str "alice", exp := none }
          (hmacSign "secret" { id := .str "1", username := .str "alice", exp := none }))) =
      some { id := .str "1", username := .str "alice", exp := none } ∧
    Utils.verify_token "secret" 0
        (some (Token.signed { id := .str "2", username := .str "alice", exp := none }
          (hmacSign "secret" { id := .str "1", username := .str "alice", exp := none }))) =
      none :=
  c6_create_verify_token_roundtrip "secret" 0
    [("_id", Value.str "1"), ("username", Value.str "alice")] []
    (.str "1") (.str "alice")
    { id := .str "2", username := .str "alice", exp := none }
    (hmacSign "secret" { id := .str "1", username := .str "alice", exp := none })
    (by decide) (by decide) (by decide)

/-- C7: a missing token, a malformed token, and a correctly signed but
expired token all verify to the same caller-visible invalid outcome
(`None`), not a thrown fault. -/
theorem c7_verify_token_invalid_outcomes (key : String) (now t : Nat)
    (raw : String) (p : TokenPayload) (hexp : p.exp = some t) (hle : t ≤ now) :
    Utils.verify_token key now none = none ∧
    Utils.verify_token key now (some (Token.garbage raw)) = none ∧
    Utils.verify_token key now (some (Token.signed p (hmacSign key p))) = none := by
  refine ⟨rfl, rfl, ?_⟩
  simp [Utils.verify_token, jwtDecode, hexp, hle]

/-- Witness for C7: a token that expired at time 3, checked at time 5. -/
theorem c7_verify_token_invalid_outcomes_witness :
    Utils.verify_token "k" 5 none = none ∧
    Utils.verify_token "k" 5 (some (Token.garbage "zzz")) = none ∧
    Utils.verify_token "k" 5
      (some (Token.signed { id := .str "1", username := .str "a", exp := some 3 }
        (hmacSign "k" { id := .str "1", username := .str "a", exp := some 3 }))) = none :=
  c7_verify_token_invalid_outcomes "k" 5 3 "zzz"
    { id := .str "1", username := .str "a", exp := some 3 } rfl (by decide)

/-- C8, counterexample: the spec says a register request with a non-empty
username and password but no role succeeds (role optional).  The handler in
this variant checks `'role' not in data` up front, so such a request is
rejected as invalid input (400) on the empty store, with nothing
inserted. -/
theorem c8_counterexample_register_without_role :
    App.register_user
      (some [("username", Value.str "bob"), ("password", Value.str "Passw0rd!")]) st0 =
      (.invalidInput, st0) ∧
    RegResult.status
      (App.register_user
        (some [("username", Value.str "bob"), ("password", Value.str "Passw0rd!")]) st0).1 =
      400 := by
  refine ⟨by decide, by decide⟩

/-- C8, amended: `role` is a required field in this variant — every register
body without it is rejected as invalid input and the store is unchanged. -/
theorem c8_role_required (d : Doc) (st : DBState) (hrole : d.lookup "role" = none) :
    App.register_user (some d) st = (.invalidInput, st) := by
  rcases h1 : d.lookup "username" with _ | uv <;>
    rcases h2 : d.lookup "password" with _ | pv <;>
      simp [App.register_user, h1, h2, hrole]

/-- Witness for C8 at a concrete role-less body. -/
theorem c8_role_required_witness :
    App.register_user
      (some [("username", Value.str "eve"), ("password", Value.str "x"),
             ("note", Value.str "y")]) st0 =
      (.invalidInput, st0) :=
  c8_role_required
    [("username", Value.str "eve"), ("password", Value.str "x"), ("note", Value.str "y")]
    st0 (by decide)

/-- C9: any document present in the user store after a register call that
was not there before is the freshly inserted user, whose `password` field
holds the output of the hashing step applied to the request's password —
and in particular is never the plaintext string itself. -/
theorem c9_persisted_password_is_hashed (data : Option Doc) (st : DBState) :
    ∀ doc ∈ (App.register_user data st).2.users,
      doc ∈ st.users ∨
      ∃ (d : Doc) (p : String) (rv : Value),
        data = some d ∧ d.lookup "password" = some (.str p) ∧
        doc.lookup "password" = some (.hashV (Utils.hash_password p st.rng)) ∧
        ∀ s, doc.lookup "password" ≠ some (.str s) := by
  intro doc hmem
  rcases data with _ | d
  · exact Or.inl (by simpa [App.register_user] using hmem)
  rcases h1 : d.lookup "username" with _ | uv
  · exact Or.inl (by simpa [App.register_user, h1] using hmem)
  rcases h2 : d.lookup "password" with _ | pv
  · exact Or.inl (by simpa [App.register_user, h1, h2] using hmem)
  rcases h3 : d.lookup "role" with _ | rv
  · exact Or.inl (by simpa [App.register_user, h1, h2, h3] using hmem)
  rcases uv with u | nu | hu
  · rcases pv with p | np | hp
    · by_cases hex : Database.get_user [("name", Value.str (pyLower u))] st = []
      · simp [App.register_user, h1, h2, h3, hex, Database.add_user,
          Database.insertOne] at hmem
        rcases hmem with hold | hnew
        · exact Or.inl hold
        · refine Or.inr ⟨d, p, rv, rfl, h2, ?_, ?_⟩
          · rw [hnew]
            simp [List.lookup]
          · intro s hcontra
            rw [hnew] at hcontra
            simp [List.lookup] at hcontra
      · exact Or.inl (by simpa [App.register_user, h1, h2, h3, hex] using hmem)
    · exact Or.inl (by simpa [App.register_user, h1, h2, h3] using hmem)
    · exact Or.inl (by simpa [App.register_user, h1, h2, h3] using hmem)
  · exact Or.inl (by simpa [App.register_user, h1, h2, h3] using hmem)
  · exact Or.inl (by simpa [App.register_user, h1, h2, h3] using hmem)

/-- The user document inserted by registering `reqAlice` on the empty
store. -/
def docAlice : Doc :=
  [("_id", Value.objId 0),
   ("username", Value.str "alice"),
   ("password", Value.hashV (Utils.hash_password "Passw0rd!" 0)),
   ("role", Value.str "user")]

/-- Witness for C9 at the concrete registration of "alice" on the empty
store. -/
theorem c9_persisted_password_is_hashed_witness :
    docAlice ∈ st0.users ∨
    ∃ (d : Doc) (p : String) (rv : Value),
      some reqAlice = some d ∧ d.lookup "password" = some (.str p) ∧
      docAlice.lookup "password" = some (.hashV (Utils.hash_password p st0.rng)) ∧
      ∀ s, docAlice.lookup "password" ≠ some (.str s) :=
  c9_persisted_password_is_hashed (some reqAlice) st0 docAlice (by decide)
